import Mathlib

/-!
Verification development for the royale-pet-bot repository
(sources: bot.py, rp_scraper.py, adminlist.py).

The Python sources are shallowly embedded: HTML documents are modelled as
element trees (an element carries its tag, class list, attribute list, the
value of BeautifulSoup's `.string` accessor, and its children), fallible code
returns `Except`, and the regular expressions used by the sources are
translated to executable functions with Python `re` semantics (`.` does not
match a newline, `$` matches at the end or just before one trailing newline,
lazy and greedy backtracking as in CPython).
-/

/-- Whitespace test matching Python's `str.strip` / `str.split` / regex `\s`
(ASCII portion; the sources only meet ASCII whitespace). -/
def isPySpace (c : Char) : Bool :=
  c == ' ' || c == '\t' || c == '\n' || c == '\r' || c == '\x0b' || c == '\x0c'

/-- Python `str.strip()`: drop leading and trailing whitespace. -/
def pyStrip (l : List Char) : List Char :=
  ((l.dropWhile isPySpace).reverse.dropWhile isPySpace).reverse

/-- Python `str.lower()` (ASCII portion). -/
def pyLower (l : List Char) : List Char :=
  l.map Char.toLower

/-- Worker for `pySplit`; accumulates the current token in reverse. -/
def pySplitGo (acc : List Char) : List Char → List (List Char)
  | [] => if acc.isEmpty then [] else [acc.reverse]
  | c :: rest =>
    if isPySpace c then
      if acc.isEmpty then pySplitGo [] rest
      else acc.reverse :: pySplitGo [] rest
    else pySplitGo (c :: acc) rest

/-- Python `str.split()` with no argument: split on runs of whitespace,
discarding empty pieces. -/
def pySplit (l : List Char) : List (List Char) :=
  pySplitGo [] l

/-- Strip a literal character sequence from the front, or fail. -/
def stripPre : List Char → List Char → Option (List Char)
  | [], s => some s
  | _ :: _, [] => none
  | c :: p, d :: s => if c = d then stripPre p s else none

/-- Drop a single trailing newline, mirroring where Python's `$` may match
(at the end of the string or just before one final newline). -/
def dollarCut (l : List Char) : List Char :=
  match l.getLast? with
  | some c => if c = '\n' then l.dropLast else l
  | none => l

/-- Match `(.+)$` against the whole remaining input (Python semantics:
`.` excludes newlines, `$` is end-of-string or before one trailing newline);
returns the captured group. -/
def dollarGroup (rest : List Char) : Option (List Char) :=
  let core := dollarCut rest
  if core != [] && core.all (fun c => c != '\n') then some core else none

/-- Worker for Python `int()`: digits possibly separated by single
underscores, most significant first. -/
def digitsUSGo (acc : Nat) : List Char → Option Nat
  | [] => some acc
  | '_' :: c :: rest =>
    if c.isDigit then digitsUSGo (acc * 10 + (c.toNat - 48)) rest else none
  | ['_'] => none
  | c :: rest =>
    if c.isDigit then digitsUSGo (acc * 10 + (c.toNat - 48)) rest else none

/-- Nonempty digit sequence with optional single underscores between digits. -/
def digitsUS : List Char → Option Nat
  | [] => none
  | c :: rest => if c.isDigit then digitsUSGo (c.toNat - 48) rest else none

/-- Python `int(s)` on a decimal string: surrounding whitespace stripped,
optional sign, digits with optional single underscore separators
(ASCII digits; `none` models the `ValueError` path). -/
def pyInt (s : String) : Option Int :=
  match pyStrip s.data with
  | '+' :: rest => (digitsUS rest).map Int.ofNat
  | '-' :: rest => (digitsUS rest).map (fun n => -(n : Int))
  | rest => (digitsUS rest).map Int.ofNat

/-- An HTML element as BeautifulSoup presents it to rp_scraper.py: tag name,
class list, attribute list, the value of the `.string` accessor (which is
`None` when the element does not have exactly one string below it), and the
child elements. -/
inductive Html where
  | el (tag : String) (classes : List String) (attrs : List (String × String))
       (str : Option String) (children : List Html)

/-- Tag name of an element. -/
def Html.tag : Html → String
  | .el t _ _ _ _ => t

/-- Class list of an element. -/
def Html.classes : Html → List String
  | .el _ c _ _ _ => c

/-- Attribute list of an element. -/
def Html.attrs : Html → List (String × String)
  | .el _ _ a _ _ => a

/-- BeautifulSoup's `.string` accessor. -/
def Html.str : Html → Option String
  | .el _ _ _ s _ => s

/-- Child elements. -/
def Html.children : Html → List Html
  | .el _ _ _ _ ch => ch

mutual

/-- An element followed by all its descendants in document (preorder) order. -/
def allNodes : Html → List Html
  | .el t c a s ch => .el t c a s ch :: allNodesList ch

/-- All elements of a forest in document order. -/
def allNodesList : List Html → List Html
  | [] => []
  | h :: t => allNodes h ++ allNodesList t

end

/-- BeautifulSoup tag-and-class filter: `find_all(tag, class_=cls)` matches
elements with this tag whose class list contains `cls`. -/
def matchesTC (tag cls : String) (h : Html) : Bool :=
  h.tag == tag && h.classes.contains cls

/-- soup.find_all(tag, class_=cls): all matching elements of the document in
document order. -/
def findAllDoc (tag cls : String) (doc : List Html) : List Html :=
  (allNodesList doc).filter (matchesTC tag cls)

/-- el.find_all(tag, class_=cls): all matching descendants of an element in
document order. -/
def findAllIn (tag cls : String) (h : Html) : List Html :=
  (allNodesList h.children).filter (matchesTC tag cls)

/-- Value of a statistic: an integer when coercion succeeded, otherwise the
literal source text (rp_scraper.py lines 114-132). -/
inductive SValue where
  | num (n : Int)
  | str (s : String)
deriving DecidableEq

/-- Statistic record (rp_scraper.py lines 13-16). -/
structure Statistic where
  value : SValue
  rank : Option SValue
deriving DecidableEq

/-- PlayerData record (rp_scraper.py lines 7-11); `stats` is the insertion
ordered dictionary from group title to the group's section dictionary. -/
structure PlayerData where
  name : String
  avatar_url : Option String
  stats : List (String × List (String × Statistic))
deriving DecidableEq

/-- Exceptions that can escape the scraper: `FetchError` (rp_scraper.py
line 30) and Python's `AttributeError` (raised by `None.replace`). -/
inductive PyErr where
  | fetchError (msg : String)
  | attributeError
deriving DecidableEq

/-- Python dict assignment `d[k] = v`: replace the value at the first
occurrence of the key, keeping its position, else append. -/
def dictSet (k : String) (v : α) : List (String × α) → List (String × α)
  | [] => [(k, v)]
  | (k', v') :: rest => if k' = k then (k', v) :: rest else (k', v') :: dictSet k v rest

/-- Python `value.replace(",", "")`: delete every comma. -/
def stripCommas (l : List Char) : List Char :=
  l.filter (fun c => c != ',')

/-- Value coercion for a statistic or rank string (rp_scraper.py lines
117-120 and 127-130): strip thousands separators and try `int()`, keeping the
original text on `ValueError`. -/
def coerceStat (v : String) : SValue :=
  match pyInt (String.mk (stripCommas v.data)) with
  | some n => SValue.num n
  | none => SValue.str v

/-- Take the first element of a `find_all` result (the loops at rp_scraper.py
lines 114-122 and 124-132 break after one iteration) and read its `.string`;
a present element whose `.string` is `None` raises `AttributeError` at
`value.replace(",", "")`, which the surrounding `except ValueError` does not
catch. -/
def getStr (els : List Html) : Except PyErr (Option String) :=
  match els.head? with
  | none => .ok none
  | some e =>
    match e.str with
    | none => .error PyErr.attributeError
    | some v => .ok (some v)

/-- Process one `li.stat-pair` (rp_scraper.py lines 105-135): label from the
first `a.field`, value from the first `span.value`, rank from the first
`div.ranking`; an item missing label or value yields nothing. -/
def procPair (li : Html) : Except PyErr (Option (String × Statistic)) :=
  match getStr (findAllIn "span" "value" li) with
  | .error e => .error e
  | .ok v? =>
    match getStr (findAllIn "div" "ranking" li) with
    | .error e => .error e
    | .ok r? =>
      match (findAllIn "a" "field" li).head?.bind Html.str, v? with
      | some k, some v => .ok (some (k, { value := coerceStat v, rank := r?.map coerceStat }))
      | _, _ => .ok none

/-- One step of the stat-pair loop: store a matched item in the section
dictionary (rp_scraper.py lines 134-135). -/
def pairStep (sec : List (String × Statistic)) (li : Html) :
    Except PyErr (List (String × Statistic)) :=
  match procPair li with
  | .error e => .error e
  | .ok none => .ok sec
  | .ok (some (k, st)) => .ok (dictSet k st sec)

/-- The stat-pair loop with an explicit accumulator. -/
def procPairsFrom (sec : List (String × Statistic)) :
    List Html → Except PyErr (List (String × Statistic))
  | [] => .ok sec
  | li :: rest =>
    match pairStep sec li with
    | .error e => .error e
    | .ok sec2 => procPairsFrom sec2 rest

/-- Section dictionary built from a group's stat pairs (rp_scraper.py
lines 103-135). -/
def procPairs (pairs : List Html) : Except PyErr (List (String × Statistic)) :=
  procPairsFrom [] pairs

/-- Title of a stats group: `.string` of the first `div.stats-group-title`
(rp_scraper.py lines 94-98); `none` when there is no such element or its
`.string` is `None`, in which case the group is skipped (lines 100-101). -/
def titleOf (g : Html) : Option String :=
  match (findAllIn "div" "stats-group-title" g).head? with
  | none => none
  | some e => e.str

/-- One step of the stats-group loop (rp_scraper.py lines 93-137): a group
with no discoverable title is skipped, otherwise its section is built and
stored under the title — unconditionally, even when the section is empty. -/
def statsStep (d : List (String × List (String × Statistic))) (g : Html) :
    Except PyErr (List (String × List (String × Statistic))) :=
  match titleOf g with
  | none => .ok d
  | some t =>
    match procPairs (findAllIn "li" "stat-pair" g) with
    | .error e => .error e
    | .ok sec => .ok (dictSet t sec d)

/-- The stats-group loop with an explicit accumulator. -/
def statsFoldFrom (d : List (String × List (String × Statistic))) :
    List Html → Except PyErr (List (String × List (String × Statistic)))
  | [] => .ok d
  | g :: gs =>
    match statsStep d g with
    | .error e => .error e
    | .ok d2 => statsFoldFrom d2 gs

/-- The player-name extraction of rp_scraper.py lines 71-76: for every
`div.profile`, for every `div.name` inside it, assign `player_name =
el.string` — no break, so every iteration overwrites the previous value. -/
def extractedName (doc : List Html) : Option String :=
  (findAllDoc "div" "profile" doc).foldl
    (fun acc p => (findAllIn "div" "name" p).foldl (fun _ e => e.str) acc) none

/-- Literal characters of the style-attribute pattern
`background-image:url\(` (rp_scraper.py line 82). -/
def urlPat : List Char :=
  "background-image:url(".data

/-- Model of `re.match(r"^background-image:url\((.+)\);$", s)` returning the
captured group: the pattern is anchored on both sides, `.` excludes newlines,
and `$` may sit before one trailing newline. -/
def styleUrlMatch (s : String) : Option String :=
  match stripPre urlPat (dollarCut s.data) with
  | none => none
  | some rest =>
    match rest.reverse with
    | ';' :: ')' :: midrev =>
      if midrev != [] && midrev.all (fun c => c != '\n') then
        some (String.mk midrev.reverse)
      else none
    | _ => none

/-- What one styled avatar element contributes (rp_scraper.py lines 80-84):
the raw style attribute, replaced by the captured group when the pattern
matches. -/
def avatarExtract (s : String) : String :=
  match styleUrlMatch s with
  | some m => m
  | none => s

/-- Body of the avatar loop (rp_scraper.py lines 78-86): read the `style`
attribute (a `KeyError` for a missing attribute is swallowed, keeping the
previous value) and keep either the pattern's captured group or the raw
attribute. -/
def avatarStep (a : Option String) (e : Html) : Option String :=
  match e.attrs.lookup "style" with
  | none => a
  | some s => some (avatarExtract s)

/-- The avatar extraction of rp_scraper.py lines 78-86: for every
`div.profile`, for every `a.avatar` inside it, run the avatar loop body. -/
def extractedAvatar (doc : List Html) : Option String :=
  (findAllDoc "div" "profile" doc).foldl
    (fun acc p => (findAllIn "a" "avatar" p).foldl avatarStep acc) none

/-- parse_html_into_stats (rp_scraper.py lines 57-139): absent result when no
player name was extracted, otherwise PlayerData with the avatar reference and
the stats dictionary; the stats loop can raise `AttributeError` (see
`getStr`). The `html is None` guard at line 64 is not modelled because the
only caller passes `response.read()`, which is never `None`. -/
def parse_html_into_stats (doc : List Html) : Except PyErr (Option PlayerData) :=
  match extractedName doc with
  | none => .ok none
  | some nm =>
    match statsFoldFrom [] (findAllDoc "div" "stats-group" doc) with
    | .error e => .error e
    | .ok stats => .ok (some { name := nm, avatar_url := extractedAvatar doc, stats := stats })

/-- Outcome of the HTTP POST at rp_scraper.py lines 44-48, supplied as an
oracle: either the transport failed (`urllib.error.URLError`) or a response
with a status, a parsed body and a final URL arrived. -/
inductive TransportResult where
  | urlError (msg : String)
  | response (status : Nat) (body : List Html) (finalUrl : String)

/-- fetch_page (rp_scraper.py lines 33-55): re-raise transport failure as
FetchError, reject any status other than 200, otherwise return the body and
the resolved final URL. -/
def fetch_page : TransportResult → Except PyErr (List Html × String)
  | .urlError m => .error (.fetchError m)
  | .response st body url =>
    if st ≠ 200 then .error (.fetchError ("Status " ++ toString st))
    else .ok (body, url)

/-- fetch_player_data (rp_scraper.py lines 141-157): fetch the page and parse
it; the `page_data is None` guard at line 154 is dead code because
`response.read()` never returns `None`. -/
def fetch_player_data (r : TransportResult) : Except PyErr (Option PlayerData × String) :=
  match fetch_page r with
  | .error e => .error e
  | .ok (body, url) =>
    match parse_html_into_stats body with
    | .error e => .error e
    | .ok pd => .ok (pd, url)

/-- The transport-level failure condition of the claim: the HTTP request
failed or the response status is not 200. -/
def transportBad : TransportResult → Prop
  | .urlError _ => True
  | .response st _ _ => st ≠ 200

/-- Model of `re.match(fr"^<@!?{bot_id}>(.+)$", content)` returning the
captured group (bot.py line 37). -/
def mentionMatch (botId : Nat) (s : List Char) : Option (List Char) :=
  let idc := (Nat.repr botId).data
  match stripPre ('<' :: '@' :: '!' :: idc ++ ['>']) s with
  | some rest => dollarGroup rest
  | none =>
    match stripPre ('<' :: '@' :: idc ++ ['>']) s with
    | some rest => dollarGroup rest
    | none => none

/-- The `command_str` of bot.py lines 37-45: the mention-stripped text, or
the whole message in a DM, or nothing. -/
def commandStrOf (botId : Nat) (isDM : Bool) (content : List Char) : Option (List Char) :=
  match mentionMatch botId content with
  | some rest => some rest
  | none => if isDM then some content else none

/-- Try `\s+(.+)` at the start of `rest` (part of bot.py line 48): the
greedy whitespace run backtracks until `(.+)` can start on a non-newline
character; returns the second capture group. -/
def findJ (rest : List Char) : Nat → Option (List Char)
  | 0 => none
  | j + 1 =>
    match rest.drop (j + 1) with
    | [] => findJ rest j
    | c :: tail =>
      if c = '\n' then findJ rest j
      else some ((c :: tail).takeWhile (fun x => x != '\n'))

/-- Match `\s+(.+)` at the start of a string, Python `re` semantics. -/
def wsGroup (rest : List Char) : Option (List Char) :=
  let n := (rest.takeWhile isPySpace).length
  if n = 0 then none else findJ rest n

/-- Model of `re.match(r"(.+?)\s+(.+)", s)` (bot.py line 48): the lazy first
group grows one non-newline character at a time until `\s+(.+)` matches after
it; returns both capture groups. -/
def argsScan (pre : List Char) : List Char → Option (List Char × List Char)
  | [] => none
  | c :: rest =>
    if c = '\n' then none
    else
      match wsGroup rest with
      | some g2 => some (pre ++ [c], g2)
      | none => argsScan (pre ++ [c]) rest

/-- The argument split of bot.py line 48. -/
def argsMatch (s : List Char) : Option (List Char × List Char) :=
  argsScan [] s

/-- The text that becomes the command before strip/lower: the lazy leading
token when the argument split matched, otherwise the whole command string
(bot.py lines 50-55). -/
def commandTok (cs : List Char) : List Char :=
  match argsMatch cs with
  | none => cs
  | some (tok, _) => tok

/-- extract_command (bot.py lines 22-60). -/
def extract_command (botId : Nat) (isDM : Bool) (content : List Char) :
    Option (List Char) × Option (List (List Char)) :=
  match commandStrOf botId isDM content with
  | none => (none, none)
  | some cs =>
    match argsMatch cs with
    | none => (some (pyLower (pyStrip cs)), none)
    | some (tok, rem) => (some (pyLower (pyStrip tok)), some (rem :: pySplit rem))

/-- Comparison of the supplied password with the configured credential
(adminlist.py line 11): `os.getenv` may be unset, in which case the string
comparison is always false. -/
def envMatches (env : Option String) (password : String) : Bool :=
  match env with
  | some e => password == e
  | none => false

/-- AdminList.authenticate (adminlist.py lines 7-15): an already-listed user
succeeds immediately; otherwise an exact credential match appends the user. -/
def authenticate (env : Option String) (l : List Nat) (user : Nat) (password : String) :
    Bool × List Nat :=
  if user ∈ l then (true, l)
  else if envMatches env password then (true, l ++ [user])
  else (false, l)

/-- AdminList.is_authorized (adminlist.py lines 17-18). -/
def is_authorized (l : List Nat) (user : Nat) : Bool :=
  l.contains user

/-- The swallowed-exception division of the derived metrics (bot.py lines
153-172): `x / y` succeeds only for two numeric operands with a nonzero
denominator; `ZeroDivisionError` and `TypeError` are swallowed by the bare
`except`. -/
def tryDivide (a b : SValue) : Option Rat :=
  match a, b with
  | .num x, .num y => if y = 0 then none else some ((x : Rat) / (y : Rat))
  | _, _ => none

/-- A derived figure read off a section dictionary: look up the numerator and
denominator keys (a `KeyError` is swallowed by the bare `except`) and divide. -/
def derivedFigure (sec : List (String × Statistic)) (a b : String) : Option Rat :=
  match sec.lookup a, sec.lookup b with
  | some w, some g => tryDivide w.value g.value
  | _, _ => none

/-- The win percentage appended at the "Wins" line (bot.py lines 153-158). -/
def winPercent (sec : List (String × Statistic)) : Option Rat :=
  derivedFigure sec "Wins" "Games Played"

/-- The K/D figure appended at the "Kills" line (bot.py lines 160-165). -/
def kdFigure (sec : List (String × Statistic)) : Option Rat :=
  derivedFigure sec "Kills" "Deaths"

/-- The top-N percentage appended at a "Top 5"/"Top 3"/"Top 2" line
(bot.py lines 167-172). -/
def topFigure (k : String) (sec : List (String × Statistic)) : Option Rat :=
  derivedFigure sec k "Games Played"

/-- The keys subject to the top-N derived metric (bot.py line 167). -/
def topKeys : List String :=
  ["Top 5", "Top 3", "Top 2"]

/-- Both operands of a derived metric are present and numeric and the
denominator is nonzero — the condition under which the spec says a derived
figure is appended. -/
def derivOk (sec : List (String × Statistic)) (a b : String) : Prop :=
  ∃ sa sb x y, sec.lookup a = some sa ∧ sec.lookup b = some sb ∧
    sa.value = SValue.num x ∧ sb.value = SValue.num y ∧ y ≠ 0

/-- All `div.name` elements inside `div.profile` blocks, in the iteration
order of rp_scraper.py lines 73-76. -/
def nameElems (doc : List Html) : List Html :=
  (findAllDoc "div" "profile" doc).flatMap (findAllIn "div" "name")

/-- Modelled from the spec: the display name under a first-match-wins
reading ("extract the display name (first match wins)"), for comparison with
the behaviour of the code. -/
def firstNameSpec (doc : List Html) : Option String :=
  (nameElems doc).head?.bind Html.str

/-- All `a.avatar` elements inside `div.profile` blocks, in the iteration
order of rp_scraper.py lines 78-86. -/
def avatarElems (doc : List Html) : List Html :=
  (findAllDoc "div" "profile" doc).flatMap (findAllIn "a" "avatar")

/-- The style attributes carried by avatar elements, in iteration order. -/
def styledAvatarStyles (doc : List Html) : List String :=
  (avatarElems doc).filterMap (fun e => e.attrs.lookup "style")

/-! Helper lemmas. -/

/-- A nested fold over the inner lists equals a fold over the flattened list. -/
lemma foldl_flatMap {α β γ : Type} (f : β → α → β) (g : γ → List α) :
    ∀ (l : List γ) (init : β),
      l.foldl (fun acc x => (g x).foldl f acc) init = (l.flatMap g).foldl f init := by
  intro l
  induction l with
  | nil => intro init; rfl
  | cons x xs ih =>
    intro init
    simp only [List.foldl_cons, List.flatMap_cons, List.foldl_append]
    exact ih _

/-- A fold that overwrites its accumulator on every element keeps only the
last element's contribution. -/
lemma foldl_assign_last {α β : Type} (f : α → Option β) :
    ∀ (l : List α) (init : Option β),
      l.foldl (fun _ e => f e) init
        = match l.getLast? with
          | none => init
          | some e => f e := by
  intro l
  induction l with
  | nil => intro init; rfl
  | cons x xs ih =>
    intro init
    cases xs with
    | nil => simp [List.foldl_cons]
    | cons y ys =>
      rw [List.foldl_cons, ih, List.getLast?_cons_cons]
      cases hl : (y :: ys).getLast? with
      | none =>
        rw [List.getLast?_eq_none_iff] at hl
        exact (List.cons_ne_nil _ _ hl).elim
      | some e => rfl

/-- A fold of the avatar loop body keeps only the last style attribute's
contribution. -/
lemma foldl_avatarStep_last :
    ∀ (l : List Html) (init : Option String),
      l.foldl avatarStep init
        = match (l.filterMap (fun e => e.attrs.lookup "style")).getLast? with
          | none => init
          | some s => some (avatarExtract s) := by
  intro l
  induction l with
  | nil => intro init; rfl
  | cons x xs ih =>
    intro init
    rw [List.foldl_cons, ih]
    cases hx : x.attrs.lookup "style" with
    | none => simp only [List.filterMap_cons, hx, avatarStep]
    | some s =>
      simp only [List.filterMap_cons, hx, avatarStep]
      cases hfm : xs.filterMap (fun e => e.attrs.lookup "style") with
      | nil => rfl
      | cons z zs =>
        rw [List.getLast?_cons_cons]
        cases hl : (z :: zs).getLast? with
        | none =>
          rw [List.getLast?_eq_none_iff] at hl
          exact (List.cons_ne_nil _ _ hl).elim
        | some s2 => rfl

/-- Python's strip yields the empty string exactly on all-whitespace input. -/
lemma pyStrip_eq_nil_iff (l : List Char) : pyStrip l = [] ↔ l.all isPySpace := by
  unfold pyStrip
  rw [List.reverse_eq_nil_iff, List.dropWhile_eq_nil_iff, List.all_eq_true]
  simp only [List.mem_reverse]
  constructor
  · intro h x hx
    rcases List.mem_append.mp ((List.takeWhile_append_dropWhile isPySpace l) ▸ hx) with h1 | h2
    · exact List.mem_takeWhile_imp h1
    · exact h x h2
  · intro h x hx
    exact h x (List.Sublist.mem hx (List.dropWhile_sublist _))

/-- The command becomes empty exactly when the pre-strip token was entirely
whitespace. -/
lemma pyLower_pyStrip_eq_nil_iff (x : List Char) :
    pyLower (pyStrip x) = [] ↔ x.all isPySpace := by
  unfold pyLower
  rw [List.map_eq_nil_iff]
  exact pyStrip_eq_nil_iff x

/-- Assigning a key makes it a key of the dictionary. -/
lemma dictSet_mem_keys {α : Type} (k : String) (v : α) :
    ∀ d : List (String × α), k ∈ (dictSet k v d).map Prod.fst := by
  intro d
  induction d with
  | nil => simp [dictSet]
  | cons p rest ih =>
    obtain ⟨k', v'⟩ := p
    by_cases h : k' = k
    · simp [dictSet, h]
    · simp only [dictSet, if_neg h, List.map_cons, List.mem_cons]
      exact Or.inr ih

/-- Assigning a key keeps every existing key. -/
lemma dictSet_keys_mono {α : Type} (k : String) (v : α) (a : String) :
    ∀ d : List (String × α), a ∈ d.map Prod.fst → a ∈ (dictSet k v d).map Prod.fst := by
  intro d
  induction d with
  | nil => simp
  | cons p rest ih =>
    obtain ⟨k', v'⟩ := p
    intro ha
    by_cases h : k' = k
    · simpa [dictSet, h] using ha
    · simp only [List.map_cons, List.mem_cons] at ha
      rcases ha with rfl | ha
      · simp [dictSet, if_neg h]
      · simp only [dictSet, if_neg h, List.map_cons, List.mem_cons]
        exact Or.inr (ih ha)

/-- Characterisation of the extracted name: the `.string` of the last
`div.name` element inside any `div.profile` block. -/
lemma extractedName_eq (doc : List Html) :
    extractedName doc = (nameElems doc).getLast?.bind Html.str := by
  unfold extractedName nameElems
  rw [foldl_flatMap (fun acc e => Html.str e) (findAllIn "div" "name"),
      foldl_assign_last Html.str]
  cases ((findAllDoc "div" "profile" doc).flatMap (findAllIn "div" "name")).getLast? <;> rfl

/-- Characterisation of the extracted avatar: the last style attribute seen
on an `a.avatar` element, run through the pattern match. -/
lemma extractedAvatar_eq (doc : List Html) :
    extractedAvatar doc = (styledAvatarStyles doc).getLast?.map avatarExtract := by
  unfold extractedAvatar styledAvatarStyles avatarElems
  rw [foldl_flatMap avatarStep (findAllIn "a" "avatar"), foldl_avatarStep_last]
  cases (((findAllDoc "div" "profile" doc).flatMap (findAllIn "a" "avatar")).filterMap
      (fun e => e.attrs.lookup "style")).getLast? <;> rfl

/-- The only exception `getStr` models is `AttributeError`. -/
lemma getStr_error {els : List Html} {e : PyErr} (h : getStr els = .error e) :
    e = PyErr.attributeError := by
  unfold getStr at h
  split at h
  · exact Except.noConfusion h
  · split at h
    · injection h with h1
      exact h1.symm
    · exact Except.noConfusion h

/-- The only exception a stat pair can raise is `AttributeError`. -/
lemma procPair_error {li : Html} {e : PyErr} (h : procPair li = .error e) :
    e = PyErr.attributeError := by
  unfold procPair at h
  split at h
  · rename_i e1 heq
    injection h with h1
    subst h1
    exact getStr_error heq
  · split at h
    · rename_i e1 heq
      injection h with h1
      subst h1
      exact getStr_error heq
    · split at h
      · exact Except.noConfusion h
      · exact Except.noConfusion h

/-- The only exception a pair step can raise is `AttributeError`. -/
lemma pairStep_error {sec : List (String × Statistic)} {li : Html} {e : PyErr}
    (h : pairStep sec li = .error e) : e = PyErr.attributeError := by
  unfold pairStep at h
  split at h
  · rename_i e1 heq
    injection h with h1
    subst h1
    exact procPair_error heq
  · exact Except.noConfusion h
  · exact Except.noConfusion h

/-- The only exception the stat-pair loop can raise is `AttributeError`. -/
lemma procPairsFrom_error :
    ∀ (pairs : List Html) (sec : List (String × Statistic)) {e : PyErr},
      procPairsFrom sec pairs = .error e → e = PyErr.attributeError := by
  intro pairs
  induction pairs with
  | nil =>
    intro sec e h
    exact Except.noConfusion h
  | cons li rest ih =>
    intro sec e h
    rw [procPairsFrom] at h
    cases hs : pairStep sec li with
    | error e1 =>
      rw [hs] at h
      injection h with h1
      subst h1
      exact pairStep_error hs
    | ok sec2 =>
      rw [hs] at h
      exact ih sec2 h

/-- The only exception a group step can raise is `AttributeError`. -/
lemma statsStep_error {d : List (String × List (String × Statistic))} {g : Html} {e : PyErr}
    (h : statsStep d g = .error e) : e = PyErr.attributeError := by
  unfold statsStep at h
  split at h
  · exact Except.noConfusion h
  · split at h
    · rename_i e1 heq
      injection h with h1
      subst h1
      exact procPairsFrom_error _ _ heq
    · exact Except.noConfusion h

/-- The only exception the stats loop can raise is `AttributeError`. -/
lemma statsFoldFrom_error :
    ∀ (gs : List Html) (d : List (String × List (String × Statistic))) {e : PyErr},
      statsFoldFrom d gs = .error e → e = PyErr.attributeError := by
  intro gs
  induction gs with
  | nil =>
    intro d e h
    exact Except.noConfusion h
  | cons g rest ih =>
    intro d e h
    rw [statsFoldFrom] at h
    cases hs : statsStep d g with
    | error e1 =>
      rw [hs] at h
      injection h with h1
      subst h1
      exact statsStep_error hs
    | ok d2 =>
      rw [hs] at h
      exact ih d2 h

/-- The only exception the parser can raise is `AttributeError`: in
particular it never raises `FetchError`. -/
lemma parse_error {doc : List Html} {e : PyErr}
    (h : parse_html_into_stats doc = .error e) : e = PyErr.attributeError := by
  unfold parse_html_into_stats at h
  split at h
  · exact Except.noConfusion h
  · split at h
    · rename_i e1 heq
      injection h with h1
      subst h1
      exact statsFoldFrom_error _ _ heq
    · exact Except.noConfusion h

/-- When no player name is extracted the parser returns an absent result. -/
lemma parse_name_none {doc : List Html} (h : extractedName doc = none) :
    parse_html_into_stats doc = .ok none := by
  unfold parse_html_into_stats
  rw [h]

/-- A successful parse determines name, avatar and stats from the three
extraction stages. -/
lemma parse_ok_characterization {doc : List Html} {pd : PlayerData}
    (h : parse_html_into_stats doc = .ok (some pd)) :
    extractedName doc = some pd.name ∧ pd.avatar_url = extractedAvatar doc ∧
      statsFoldFrom [] (findAllDoc "div" "stats-group" doc) = .ok pd.stats := by
  unfold parse_html_into_stats at h
  split at h
  · injection h with h1
    exact Option.noConfusion h1
  · rename_i nm hnm
    split at h
    · exact Except.noConfusion h
    · rename_i stats hst
      injection h with h1
      injection h1 with h2
      subst h2
      exact ⟨hnm, rfl, hst⟩

/-- Every titled group ends up as a key of the dictionary the stats loop
builds, and existing keys survive the loop. -/
lemma statsFoldFrom_keys :
    ∀ (gs : List Html) (d0 d : List (String × List (String × Statistic))),
      statsFoldFrom d0 gs = .ok d →
        (∀ k, k ∈ d0.map Prod.fst → k ∈ d.map Prod.fst) ∧
        (∀ g ∈ gs, ∀ t, titleOf g = some t → t ∈ d.map Prod.fst) := by
  intro gs
  induction gs with
  | nil =>
    intro d0 d h
    injection h with h1
    subst h1
    exact ⟨fun k hk => hk, by simp⟩
  | cons g rest ih =>
    intro d0 d h
    rw [statsFoldFrom] at h
    cases hs : statsStep d0 g with
    | error e =>
      rw [hs] at h
      exact Except.noConfusion h
    | ok d1 =>
      rw [hs] at h
      obtain ⟨mono, hmem⟩ := ih d1 d h
      have hmono0 : ∀ k, k ∈ d0.map Prod.fst → k ∈ d1.map Prod.fst := by
        intro k hk
        unfold statsStep at hs
        split at hs
        · injection hs with h1
          subst h1
          exact hk
        · split at hs
          · exact Except.noConfusion hs
          · injection hs with h1
            subst h1
            exact dictSet_keys_mono _ _ _ _ hk
      refine ⟨fun k hk => mono k (hmono0 k hk), ?_⟩
      intro g' hg' t ht
      rcases List.mem_cons.mp hg' with rfl | hrest
      · unfold statsStep at hs
        rw [ht] at hs
        cases hp : procPairs (findAllIn "li" "stat-pair" g') with
        | error e =>
          rw [hp] at hs
          exact Except.noConfusion hs
        | ok sec =>
          rw [hp] at hs
          injection hs with h1
          subst h1
          exact mono t (dictSet_mem_keys t sec d0)
      · exact hmem g' hrest t ht

/-- A division in the derived-metric blocks produces a value exactly for two
numeric operands with nonzero denominator. -/
lemma tryDivide_isSome (a b : SValue) :
    (tryDivide a b).isSome = true ↔
      (∃ x, a = SValue.num x) ∧ ∃ y, b = SValue.num y ∧ y ≠ 0 := by
  cases a with
  | num x =>
    cases b with
    | num y =>
      by_cases hy : y = 0
      · subst hy
        simp [tryDivide]
      · simp [tryDivide, hy]
    | str s => simp [tryDivide]
  | str s =>
    cases b <;> simp [tryDivide]

/-- A derived figure is present exactly when both statistics are present,
numeric, and the denominator is nonzero. -/
lemma derivedFigure_isSome (sec : List (String × Statistic)) (a b : String) :
    (derivedFigure sec a b).isSome = true ↔ derivOk sec a b := by
  unfold derivedFigure derivOk
  cases ha : sec.lookup a with
  | none => simp
  | some sa =>
    cases hb : sec.lookup b with
    | none => simp
    | some sb =>
      rw [tryDivide_isSome]
      constructor
      · rintro ⟨⟨x, hx⟩, y, hy, hy0⟩
        exact ⟨sa, sb, x, y, rfl, rfl, hx, hy, hy0⟩
      · rintro ⟨sa2, sb2, x, y, ha2, hb2, hx, hy, hy0⟩
        injection ha2 with e1
        injection hb2 with e2
        subst e1
        subst e2
        exact ⟨⟨x, hx⟩, y, hy, hy0⟩

/-! Concrete documents used by counterexamples and witnesses. -/

/-- A profile name element. -/
def nameDiv (s : String) : Html :=
  .el "div" ["name"] [] (some s) []

/-- A stats group that discovers the title "Solo" but contains no stat pair
at all. -/
def c1grp : Html :=
  .el "div" ["stats-group"] [] none
    [ .el "div" ["stats-group-title"] [] (some "Solo") [] ]

/-- Document with a named profile and one titled group with no items. -/
def c1doc : List Html :=
  [ .el "div" ["profile"] [] none [nameDiv "Bob"], c1grp ]

/-- Document whose profile carries two display-name elements, "A" then "B"
in document order. -/
def c2doc : List Html :=
  [ .el "div" ["profile"] [] none [nameDiv "A", nameDiv "B"] ]

/-- Document with a named profile and a titled group holding one stat pair
whose value element has no `.string` (for instance an empty
`span class="value"`), the input on which the parser raises. -/
def c3doc : List Html :=
  [ .el "div" ["profile"] [] none [nameDiv "Bob"],
    .el "div" ["stats-group"] [] none
      [ .el "div" ["stats-group-title"] [] (some "Solo") [],
        .el "li" ["stat-pair"] [] none
          [ .el "a" ["field"] [] (some "Wins") [],
            .el "span" ["value"] [] none [] ] ] ]

/-- Document whose avatar element carries a style attribute that does not
match the `background-image:url(...)` pattern. -/
def c10doc : List Html :=
  [ .el "div" ["profile"] [] none
      [ nameDiv "Bob", .el "a" ["avatar"] [("style", "xyz")] none [] ] ]

/-- A section carrying a numeric "Kills" and a zero "Deaths". -/
def c7sec : List (String × Statistic) :=
  [("Kills", ⟨.num 10, none⟩), ("Deaths", ⟨.num 0, none⟩)]

/-! Claim theorems. -/

/-- C1 (amended): a statistics group whose title was discovered is always
written into the stats mapping keyed by its title, regardless of whether any
of its items matched; a titled group with no matching items appears with an
empty section rather than being dropped. -/
theorem C1_titled_groups_stored :
    ∀ (doc : List Html) (pd : PlayerData),
      parse_html_into_stats doc = .ok (some pd) →
      ∀ g ∈ findAllDoc "div" "stats-group" doc, ∀ t, titleOf g = some t →
        t ∈ pd.stats.map Prod.fst := by
  intro doc pd h g hg t ht
  have hs := (parse_ok_characterization h).2.2
  exact (statsFoldFrom_keys _ _ _ hs).2 g hg t ht

/-- C1 counterexample: on a document whose only titled group ("Solo")
contains no stat pair, the parser still stores "Solo" as a key of the stats
mapping (with an empty section), contradicting the claim that a titled group
in which no item matched does not appear as a key. -/
theorem C1_empty_group_cex :
    parse_html_into_stats c1doc = .ok (some ⟨"Bob", none, [("Solo", [])]⟩) := rfl

/-- C1 witness: the amended theorem applied to the concrete document. -/
theorem C1_titled_groups_stored_witness :
    "Solo" ∈ (⟨"Bob", none, [("Solo", [])]⟩ : PlayerData).stats.map Prod.fst :=
  C1_titled_groups_stored c1doc ⟨"Bob", none, [("Solo", [])]⟩ rfl c1grp
    (show c1grp ∈ findAllDoc "div" "stats-group" c1doc from List.mem_singleton_self _)
    "Solo" rfl

/-- C2 (amended): the parser extracts the display name with last match wins:
PlayerData.name equals the text of the final display-name element the
iteration meets (profile blocks in document order, name elements within
each), not the first. -/
theorem C2_name_last_match :
    ∀ (doc : List Html) (pd : PlayerData),
      parse_html_into_stats doc = .ok (some pd) →
      some pd.name = (nameElems doc).getLast?.bind Html.str := by
  intro doc pd h
  have hc := (parse_ok_characterization h).1
  rw [extractedName_eq] at hc
  exact hc.symm

/-- C2 counterexample: a profile with name elements "A" then "B" in document
order parses to the name "B", while the first matching name element's text is
"A" — so the resulting name is not the first match's text. -/
theorem C2_first_match_cex :
    parse_html_into_stats c2doc = .ok (some ⟨"B", none, []⟩) ∧
      firstNameSpec c2doc = some "A" :=
  ⟨rfl, rfl⟩

/-- C2 witness: the amended theorem applied to the concrete document. -/
theorem C2_name_last_match_witness :
    some (PlayerData.name ⟨"B", none, []⟩) = (nameElems c2doc).getLast?.bind Html.str :=
  C2_name_last_match c2doc ⟨"B", none, []⟩ rfl

/-- C3 (code bug): on a well-formed document containing a stat pair whose
value element has no string content, the parser raises `AttributeError`
(`None.replace` at rp_scraper.py line 118, not caught by the
`except ValueError` at line 119), contradicting the contract that parse
never throws for malformed-but-parseable HTML. -/
theorem C3_value_attribute_error :
    parse_html_into_stats c3doc = .error PyErr.attributeError := rfl

/-- C4: when the command string splits into a lazy leading token followed by
whitespace and a remainder, the command is the token stripped and
lower-cased and args is the untouched remainder followed by its
whitespace-run tokenisation; in particular
extract(botId=42, dm=false, "<@42> stats PlayerOne") yields command "stats"
and args ["PlayerOne", "PlayerOne"]. -/
theorem C4_extract_args :
    extract_command 42 false "<@42> stats PlayerOne".data
        = (some "stats".data, some ["PlayerOne".data, "PlayerOne".data]) ∧
    ∀ (botId : Nat) (isDM : Bool) (content cs tok rem : List Char),
      commandStrOf botId isDM content = some cs →
      argsMatch cs = some (tok, rem) →
      extract_command botId isDM content
        = (some (pyLower (pyStrip tok)), some (rem :: pySplit rem)) := by
  refine ⟨rfl, ?_⟩
  intro botId isDM content cs tok rem h1 h2
  unfold extract_command
  rw [h1]
  show (match argsMatch cs with
        | none => (some (pyLower (pyStrip cs)), none)
        | some (tok, rem) => (some (pyLower (pyStrip tok)), some (rem :: pySplit rem)))
      = (some (pyLower (pyStrip tok)), some (rem :: pySplit rem))
  rw [h2]

/-- C4 witness: the general half applied at a concrete message. -/
theorem C4_extract_args_witness :
    extract_command 42 false "<@42> go x".data
      = (some (pyLower (pyStrip " go".data)), some ("x".data :: pySplit "x".data)) :=
  C4_extract_args.2 42 false "<@42> go x".data " go x".data " go".data "x".data rfl rfl

/-- C5 (amended): the returned command may be empty: when a command match is
returned, the command is empty exactly when the token it is built from (the
lazy leading token, or the whole command string when no argument split
exists) consists solely of whitespace; absence of a command is still the
distinct (none, none) result. -/
theorem C5_command_empty_iff :
    (∀ (botId : Nat) (isDM : Bool) (content : List Char),
        commandStrOf botId isDM content = none →
        extract_command botId isDM content = (none, none)) ∧
    ∀ (botId : Nat) (isDM : Bool) (content cs c : List Char)
      (a : Option (List (List Char))),
      commandStrOf botId isDM content = some cs →
      extract_command botId isDM content = (some c, a) →
      (c = [] ↔ (commandTok cs).all isPySpace) := by
  constructor
  · intro botId isDM content h
    unfold extract_command
    rw [h]
  · intro botId isDM content cs c a h1 h2
    unfold extract_command at h2
    rw [h1] at h2
    have h3 : (match argsMatch cs with
          | none => ((some (pyLower (pyStrip cs)) : Option (List Char)),
                     (none : Option (List (List Char))))
          | some (tok, rem) => (some (pyLower (pyStrip tok)), some (rem :: pySplit rem)))
        = (some c, a) := h2
    unfold commandTok
    cases hA : argsMatch cs with
    | none =>
      rw [hA] at h3
      injection h3 with hc ha
      injection hc with hc
      subst hc
      show pyLower (pyStrip cs) = [] ↔ cs.all isPySpace = true
      exact pyLower_pyStrip_eq_nil_iff cs
    | some pr =>
      obtain ⟨tok, rem⟩ := pr
      rw [hA] at h3
      injection h3 with hc ha
      injection hc with hc
      subst hc
      show pyLower (pyStrip tok) = [] ↔ tok.all isPySpace = true
      exact pyLower_pyStrip_eq_nil_iff tok

/-- C5 counterexample: a mention followed by a single space is recognised as
a command, and the returned command is the empty string — so a returned
match does not guarantee a non-empty command. -/
theorem C5_empty_command_cex :
    extract_command 42 false "<@42> ".data = (some [], none) := rfl

/-- C5 witness: both halves of the amended theorem at concrete inputs. -/
theorem C5_command_empty_iff_witness :
    extract_command 42 false "hi".data = (none, none) ∧
    (([] : List Char) = [] ↔ (commandTok " ".data).all isPySpace) :=
  ⟨C5_command_empty_iff.1 42 false "hi".data rfl,
   C5_command_empty_iff.2 42 false "<@42> ".data " ".data [] none rfl rfl⟩

/-- Computation rule for the fetcher on a 200 response. -/
lemma fetch_player_data_response_200 (body : List Html) (url : String) :
    fetch_player_data (.response 200 body url)
      = match parse_html_into_stats body with
        | .error e => .error e
        | .ok pd => .ok (pd, url) := rfl

/-- Computation rule for fetch_page on a non-200 status. -/
lemma fetch_page_response_ne {st : Nat} (body : List Html) (url : String) (h : st ≠ 200) :
    fetch_page (.response st body url) = .error (.fetchError ("Status " ++ toString st)) := by
  show (if st ≠ 200 then Except.error (PyErr.fetchError ("Status " ++ toString st))
        else Except.ok (body, url))
      = Except.error (PyErr.fetchError ("Status " ++ toString st))
  rw [if_pos h]

/-- Computation rule for the fetcher on a non-200 status. -/
lemma fetch_player_data_response_ne {st : Nat} (body : List Html) (url : String)
    (h : st ≠ 200) :
    fetch_player_data (.response st body url)
      = .error (.fetchError ("Status " ++ toString st)) := by
  unfold fetch_player_data
  rw [fetch_page_response_ne body url h]

/-- C6: the fetcher fails with FetchError exactly when the transport fails
or the status is not 200; a 200 response with no discoverable player name is
not an error — the fetcher returns an absent PlayerData with the final URL. -/
theorem C6_fetch_error_iff :
    ∀ r : TransportResult,
      ((∃ m, fetch_player_data r = .error (.fetchError m)) ↔ transportBad r) ∧
      ∀ st body url, r = .response st body url → st = 200 →
        extractedName body = none →
        fetch_player_data r = .ok (none, url) := by
  intro r
  cases r with
  | urlError m =>
    constructor
    · exact ⟨fun _ => trivial, fun _ => ⟨m, rfl⟩⟩
    · intro st body url h
      exact TransportResult.noConfusion h
  | response st body url =>
    by_cases hst : st = 200
    · subst hst
      constructor
      · constructor
        · rintro ⟨m, hm⟩
          rw [fetch_player_data_response_200] at hm
          cases hp : parse_html_into_stats body with
          | error e =>
            rw [hp] at hm
            injection hm with h1
            have ha := parse_error hp
            subst ha
            exact PyErr.noConfusion h1
          | ok pd =>
            rw [hp] at hm
            exact Except.noConfusion hm
        · intro hbad
          exact absurd rfl hbad
      · intro st2 body2 url2 h h200 hname
        injection h with e1 e2 e3
        subst e2
        subst e3
        rw [fetch_player_data_response_200, parse_name_none hname]
    · constructor
      · constructor
        · intro _
          exact hst
        · intro _
          exact ⟨"Status " ++ toString st, fetch_player_data_response_ne body url hst⟩
      · intro st2 body2 url2 h h200 hname
        injection h with e1 e2 e3
        subst e1
        exact absurd h200 hst

/-- C6 witness: a transport failure yields a FetchError, and a 200 response
with an empty body yields the non-error absent result with the final URL. -/
theorem C6_fetch_error_iff_witness :
    (∃ m, fetch_player_data (.urlError "boom") = .error (.fetchError m)) ∧
    fetch_player_data (.response 200 [] "u") = .ok (none, "u") :=
  ⟨(C6_fetch_error_iff (.urlError "boom")).1.mpr trivial,
   (C6_fetch_error_iff (.response 200 [] "u")).2 200 [] "u" rfl rfl rfl⟩

/-- C7: each derived metric is present exactly when both operands are
present and numeric and the denominator is nonzero; in particular K/D is
omitted (not zero, no error) when "Deaths" is present but equals zero or is
non-numeric. -/
theorem C7_derived_metrics :
    ∀ sec : List (String × Statistic),
      ((winPercent sec).isSome = true ↔ derivOk sec "Wins" "Games Played") ∧
      ((kdFigure sec).isSome = true ↔ derivOk sec "Kills" "Deaths") ∧
      (∀ k ∈ topKeys, ((topFigure k sec).isSome = true ↔ derivOk sec k "Games Played")) ∧
      (∀ d, sec.lookup "Deaths" = some d →
        (d.value = SValue.num 0 ∨ ∃ s, d.value = SValue.str s) →
        kdFigure sec = none) := by
  intro sec
  refine ⟨derivedFigure_isSome sec "Wins" "Games Played",
          derivedFigure_isSome sec "Kills" "Deaths",
          fun k _ => derivedFigure_isSome sec k "Games Played", ?_⟩
  intro d hd hv
  unfold kdFigure derivedFigure
  rw [hd]
  cases hk : sec.lookup "Kills" with
  | none => rfl
  | some w =>
    show tryDivide w.value d.value = none
    rcases hv with h0 | ⟨s, hs⟩
    · rw [h0]
      cases w.value with
      | num x => simp [tryDivide]
      | str s2 => rfl
    · rw [hs]
      cases w.value <;> rfl

/-- C7 witness: K/D is omitted on a section with numeric "Kills" and a zero
"Deaths". -/
theorem C7_derived_metrics_witness :
    kdFigure c7sec = none :=
  (C7_derived_metrics c7sec).2.2.2 ⟨.num 0, none⟩ rfl (Or.inl rfl)

/-- C8: authenticate is idempotent for an already-authorized user: with the
correct secret the first call succeeds and appends the user once, and a
second call for the same user succeeds with any supplied secret while the
admin list stays exactly one entry larger. -/
theorem C8_authenticate_idempotent :
    ∀ (e p : String) (l : List Nat) (u : Nat), u ∉ l →
      authenticate (some e) l u e = (true, l ++ [u]) ∧
      authenticate (some e) (l ++ [u]) u p = (true, l ++ [u]) ∧
      (l ++ [u]).length = l.length + 1 := by
  intro e p l u hu
  refine ⟨?_, ?_, by simp⟩
  · unfold authenticate
    rw [if_neg hu]
    simp [envMatches]
  · unfold authenticate
    rw [if_pos (by simp)]

/-- C8 witness: the theorem at a concrete user and secret. -/
theorem C8_authenticate_idempotent_witness :
    authenticate (some "pw") [] 1 "pw" = (true, ([] : List Nat) ++ [1]) ∧
    authenticate (some "pw") (([] : List Nat) ++ [1]) 1 "zzz" = (true, ([] : List Nat) ++ [1]) ∧
    (([] : List Nat) ++ [1]).length = ([] : List Nat).length + 1 :=
  C8_authenticate_idempotent "pw" "zzz" [] 1 (by simp)

/-- C9: for a user not in the admin list, a supplied secret that does not
exactly match the configured credential makes authenticate return false and
leave the list unchanged. -/
theorem C9_wrong_secret_no_mutation :
    ∀ (e p : String) (l : List Nat) (u : Nat), u ∉ l → p ≠ e →
      authenticate (some e) l u p = (false, l) := by
  intro e p l u hu hp
  unfold authenticate
  rw [if_neg hu, if_neg (by simp [envMatches, hp])]

/-- C9 witness: the theorem at a concrete user and wrong secret. -/
theorem C9_wrong_secret_no_mutation_witness :
    authenticate (some "pw") [] 2 "nope" = (false, []) :=
  C9_wrong_secret_no_mutation "pw" "nope" [] 2 (by simp) (by decide)

/-- C10: when a parse succeeds, the avatar is the last styled avatar
element's contribution: absent exactly when no avatar element carries a
style attribute, and equal to the raw style string when that string does not
match the background-image pattern. -/
theorem C10_avatar_raw_style :
    ∀ (doc : List Html) (pd : PlayerData),
      parse_html_into_stats doc = .ok (some pd) →
      pd.avatar_url = (styledAvatarStyles doc).getLast?.map avatarExtract ∧
      (pd.avatar_url = none ↔ styledAvatarStyles doc = []) ∧
      ∀ s, (styledAvatarStyles doc).getLast? = some s → styleUrlMatch s = none →
        pd.avatar_url = some s := by
  intro doc pd h
  have hav := (parse_ok_characterization h).2.1
  rw [extractedAvatar_eq] at hav
  refine ⟨hav, ?_, ?_⟩
  · rw [hav, Option.map_eq_none', List.getLast?_eq_none_iff]
  · intro s hs hm
    rw [hav, hs]
    show some (avatarExtract s) = some s
    unfold avatarExtract
    rw [hm]

/-- C10 witness: the theorem at a document whose avatar's style attribute
"xyz" does not match the pattern: the raw string is stored. -/
theorem C10_avatar_raw_style_witness :
    (PlayerData.avatar_url ⟨"Bob", some "xyz", []⟩) = some "xyz" :=
  (C10_avatar_raw_style c10doc ⟨"Bob", some "xyz", []⟩ rfl).2.2 "xyz" rfl rfl
